import Mathlib

/-!
Verification development for the Big2State/CodeExamples repository
(src/patterns/OCP.py, OCP_2.py, ISP.py, SRP.py).

Conventions of the shallow embedding:
* Python classes holding only data become Lean structures; Python `Enum`
  classes become Lean inductives.
* Python `float` values are embedded as rationals (`ℚ`); the repository
  only multiplies them by decimal constants and prints them.  The Python
  string form of a float is embedded by `pyFloatStr`, which agrees with
  Python `repr` on the finite-decimal values appearing in the repository.
* Mutating methods become state-passing functions `State → Result × State`;
  methods whose body is `raise NotImplementedError(msg)` return
  `(.error msg, state)` — the exception propagates with the state untouched,
  exactly as in the Python source where no statement precedes the `raise`.
* `print(...)` calls are embedded as functions returning the printed string.
-/

/-- Python `repr` of a float, for the finite-decimal values used in this
repository: an integral value prints with a trailing ".0". -/
def pyFloatStr (q : ℚ) : String :=
  if q.den = 1 then toString q.num ++ ".0" else toString q

/-- One `+=` loop over a list, as Python `for x in l: acc += f(x)` unfolds:
the concatenation of `f` over the list. -/
def strConcatMap {α : Type} (f : α → String) : List α → String
  | [] => ""
  | x :: rest => f x ++ strConcatMap f rest

theorem foldl_append_eq_strConcatMap {α : Type} (f : α → String) :
    ∀ (l : List α) (init : String),
      l.foldl (fun acc x => acc ++ f x) init = init ++ strConcatMap f l := by
  intro l
  induction l with
  | nil => intro init; simp [strConcatMap, String.append_empty]
  | cons x rest ih =>
    intro init
    simp only [List.foldl_cons, strConcatMap, ih, String.append_assoc]

namespace OCP

/-- Enum `Color` of OCP.py. -/
inductive Color where
  | RED
  | GREEN
  | BLUE
deriving DecidableEq, Repr

/-- Enum `Size` of OCP.py. -/
inductive Size where
  | SMALL
  | MEDIUM
  | LARGE
deriving DecidableEq, Repr

/-- Enum `Material` of OCP.py. -/
inductive Material where
  | WOOD
  | METAL
  | PLASTIC
deriving DecidableEq, Repr

/-- Class `Product` of OCP.py: name, color, size, material. -/
structure Product where
  name : String
  color : Color
  size : Size
  material : Material
deriving DecidableEq, Repr

/-- The `Specification` hierarchy of OCP.py, embedded as one inductive:
`ColorSpecification`, `SizeSpecification`, `MaterialSpecification`,
`AndSpecification(*args)`, `OrSpecification(*args)`, `NotSpecification`.
The variadic `*args` of the combinators becomes a list. -/
inductive Specification where
  | colorSpec : Color → Specification
  | sizeSpec : Size → Specification
  | materialSpec : Material → Specification
  | andSpec : List Specification → Specification
  | orSpec : List Specification → Specification
  | notSpec : Specification → Specification
deriving Repr

mutual

/-- Dynamic dispatch of `is_satisfied`.  Each branch is the body of the
corresponding subclass: `ColorSpecification.is_satisfied` compares colors,
`AndSpecification.is_satisfied` accumulates `results` over `self.args` and
returns `all(results)`, `OrSpecification.is_satisfied` returns
`any(spec.is_satisfied(item) for spec in self.args)`,
`NotSpecification.is_satisfied` negates. -/
def Specification.is_satisfied : Specification → Product → Bool
  | .colorSpec c, item => item.color = c
  | .sizeSpec s, item => item.size = s
  | .materialSpec m, item => item.material = m
  | .andSpec args, item => (Specification.resultsOf args item).all id
  | .orSpec args, item => Specification.anySat args item
  | .notSpec s, item => !(s.is_satisfied item)

/-- The `results` list built by the loop in `AndSpecification.is_satisfied`:
`for spec in self.args: results.append(spec.is_satisfied(item))`. -/
def Specification.resultsOf : List Specification → Product → List Bool
  | [], _ => []
  | s :: rest, item => s.is_satisfied item :: Specification.resultsOf rest item

/-- The short-circuiting `any(...)` generator of
`OrSpecification.is_satisfied`. -/
def Specification.anySat : List Specification → Product → Bool
  | [], _ => false
  | s :: rest, item => s.is_satisfied item || Specification.anySat rest item

end

/-- Operator `__and__` of `Specification`: `self & other` returns
`AndSpecification(self, other)`. -/
def Specification.opAnd (s other : Specification) : Specification :=
  .andSpec [s, other]

/-- Operator `__or__` of `Specification`: `self | other` returns
`OrSpecification(self, other)`. -/
def Specification.opOr (s other : Specification) : Specification :=
  .orSpec [s, other]

/-- Operator `__invert__` of `Specification`: `~self` returns
`NotSpecification(self)`. -/
def Specification.opInvert (s : Specification) : Specification :=
  .notSpec s

/-- Method `ProductFilter.filter` of OCP.py:
`[p for p in products if specification.is_satisfied(p)]`. -/
def ProductFilter.filter (products : List Product) (specification : Specification) :
    List Product :=
  products.filter (fun p => specification.is_satisfied p)

/-- The fixed four-product demo list built in `main` of OCP.py. -/
def demoProducts : List Product :=
  [⟨"Apple", .RED, .SMALL, .PLASTIC⟩,
   ⟨"Tree", .GREEN, .LARGE, .WOOD⟩,
   ⟨"House", .BLUE, .LARGE, .METAL⟩,
   ⟨"Chair", .RED, .MEDIUM, .WOOD⟩]

theorem resultsOf_eq_map (item : Product) :
    ∀ args : List Specification,
      Specification.resultsOf args item
        = args.map (fun s => s.is_satisfied item) := by
  intro args
  induction args with
  | nil => simp [Specification.resultsOf]
  | cons s rest ih => simp [Specification.resultsOf, ih]

theorem resultsOf_all_eq (item : Product) :
    ∀ args : List Specification,
      (Specification.resultsOf args item).all id
        = args.all (fun s => s.is_satisfied item) := by
  intro args
  induction args with
  | nil => simp [Specification.resultsOf]
  | cons s rest ih => simp [Specification.resultsOf, ih]

theorem anySat_eq_any (item : Product) :
    ∀ args : List Specification,
      Specification.anySat args item
        = args.any (fun s => s.is_satisfied item) := by
  intro args
  induction args with
  | nil => simp [Specification.anySat]
  | cons s rest ih => simp [Specification.anySat, ih]

end OCP

/-- C1: `ProductFilter.filter` returns exactly the products satisfying the
specification — a product is in the output iff it is in the input and
satisfies the specification, with the exact multiplicity of the input — and
the output is a sublist of the input, hence in the same relative order.
The embedding is pure, so the input list is left unchanged by construction
(the Python body is a list comprehension, which does not mutate its
argument). -/
theorem ocp_productFilter_filters_exactly
    (products : List OCP.Product) (specification : OCP.Specification) :
    (∀ p, p ∈ OCP.ProductFilter.filter products specification ↔
        p ∈ products ∧ specification.is_satisfied p = true)
    ∧ (OCP.ProductFilter.filter products specification).Sublist products
    ∧ (∀ p, (OCP.ProductFilter.filter products specification).count p
          = if specification.is_satisfied p then products.count p else 0) := by
  refine ⟨fun p => ?_, ?_, fun p => ?_⟩
  · exact List.mem_filter
  · exact List.filter_sublist products
  · by_cases h : specification.is_satisfied p = true
    · rw [if_pos h]
      exact List.count_filter h
    · rw [if_neg h, List.count_eq_zero]
      intro hmem
      exact h (List.mem_filter.mp hmem).2

/-- C2: filtering the fixed four-item demo list with
`ColorSpecification(Color.RED)` returns exactly the two red products, the
ones named "Apple" and "Chair", in that order. -/
theorem ocp_demo_red_filter :
    OCP.ProductFilter.filter OCP.demoProducts (.colorSpec .RED)
      = [⟨"Apple", .RED, .SMALL, .PLASTIC⟩, ⟨"Chair", .RED, .MEDIUM, .WOOD⟩]
    ∧ (OCP.ProductFilter.filter OCP.demoProducts (.colorSpec .RED)).map
        OCP.Product.name = ["Apple", "Chair"] := by
  constructor <;> rfl

/-- C3: the specification combinators form a boolean algebra —
`AndSpecification(*args).is_satisfied` is the conjunction of the component
results, `OrSpecification(*args).is_satisfied` their disjunction,
`NotSpecification(s).is_satisfied` the negation — and the operators `&`,
`|`, `~` build exactly `AndSpecification(s1, s2)`, `OrSpecification(s1, s2)`
and `NotSpecification(s)`. -/
theorem ocp_specifications_boolean_algebra :
    (∀ (args : List OCP.Specification) (item : OCP.Product),
        (OCP.Specification.andSpec args).is_satisfied item
          = args.all (fun s => s.is_satisfied item))
    ∧ (∀ (args : List OCP.Specification) (item : OCP.Product),
        (OCP.Specification.orSpec args).is_satisfied item
          = args.any (fun s => s.is_satisfied item))
    ∧ (∀ (s : OCP.Specification) (item : OCP.Product),
        (OCP.Specification.notSpec s).is_satisfied item
          = !(s.is_satisfied item))
    ∧ (∀ s₁ s₂ : OCP.Specification,
        s₁.opAnd s₂ = .andSpec [s₁, s₂] ∧ s₁.opOr s₂ = .orSpec [s₁, s₂])
    ∧ (∀ s : OCP.Specification, s.opInvert = .notSpec s) := by
  refine ⟨fun args item => ?_, fun args item => ?_,
    fun s item => rfl, fun s₁ s₂ => ⟨rfl, rfl⟩, fun s => rfl⟩
  · rw [OCP.Specification.is_satisfied, OCP.resultsOf_all_eq]
  · rw [OCP.Specification.is_satisfied, OCP.anySat_eq_any]

/-- C9: the empty combinators are the identities of the boolean
composition — `AndSpecification()` is satisfied by every product and
`OrSpecification()` by none (Python `all([])` is `True`, `any(())` is
`False`). -/
theorem ocp_empty_combinators (item : OCP.Product) :
    (OCP.Specification.andSpec []).is_satisfied item = true
    ∧ (OCP.Specification.orSpec []).is_satisfied item = false := by
  constructor <;>
    simp [OCP.Specification.is_satisfied, OCP.Specification.resultsOf,
      OCP.Specification.anySat]

namespace OCP2

/-- Enum `CustomerType` of OCP_2.py. -/
inductive CustomerType where
  | REGULAR
  | PREMIUM
  | CORPORATE
deriving DecidableEq, Repr

/-- Class `Customer` of OCP_2.py: name, customer type and purchase amount
(`purchase_amount` is initialised to `0.0` by `__init__`). -/
structure Customer where
  name : String
  customer_type : CustomerType
  purchase_amount : ℚ
deriving DecidableEq, Repr

/-- Constructor `Customer.__init__`: stores name and type, sets
`purchase_amount = 0.0`. -/
def Customer.init (name : String) (customer_type : CustomerType) : Customer :=
  ⟨name, customer_type, 0⟩

/-- Method `Customer.set_purchase_amount`: replaces the purchase amount. -/
def Customer.set_purchase_amount (c : Customer) (amount : ℚ) : Customer :=
  { c with purchase_amount := amount }

/-- Method `DiscountCalculatorBad.calculate_discount` of OCP_2.py: the
`if-elif` chain over the customer type (5% regular, 15% premium, 20%
corporate; the final `else: return 0.0` is unreachable for the three-valued
enum and so has no branch here). -/
def DiscountCalculatorBad.calculate_discount (customer : Customer) : ℚ :=
  match customer.customer_type with
  | .REGULAR => customer.purchase_amount * (5 / 100)
  | .PREMIUM => customer.purchase_amount * (15 / 100)
  | .CORPORATE => customer.purchase_amount * (20 / 100)

/-- Method `RegularDiscount.calculate_discount`: 5% of the amount. -/
def RegularDiscount.calculate_discount (purchase_amount : ℚ) : ℚ :=
  purchase_amount * (5 / 100)

/-- Method `PremiumDiscount.calculate_discount`: 15% of the amount. -/
def PremiumDiscount.calculate_discount (purchase_amount : ℚ) : ℚ :=
  purchase_amount * (15 / 100)

/-- Method `CorporateDiscount.calculate_discount`: 20% of the amount. -/
def CorporateDiscount.calculate_discount (purchase_amount : ℚ) : ℚ :=
  purchase_amount * (20 / 100)

end OCP2

/-- C4: the conditional-branching calculator and the polymorphic strategies
agree — for every name and purchase amount, `DiscountCalculatorBad` on a
REGULAR / PREMIUM / CORPORATE customer equals `RegularDiscount` /
`PremiumDiscount` / `CorporateDiscount` on that amount, namely 5% / 15% /
20% of the amount. -/
theorem ocp2_bad_calculator_agrees_with_strategies
    (name : String) (amount : ℚ) :
    (OCP2.DiscountCalculatorBad.calculate_discount
        ((OCP2.Customer.init name .REGULAR).set_purchase_amount amount)
      = OCP2.RegularDiscount.calculate_discount amount
      ∧ OCP2.RegularDiscount.calculate_discount amount = amount * (5 / 100))
    ∧ (OCP2.DiscountCalculatorBad.calculate_discount
        ((OCP2.Customer.init name .PREMIUM).set_purchase_amount amount)
      = OCP2.PremiumDiscount.calculate_discount amount
      ∧ OCP2.PremiumDiscount.calculate_discount amount = amount * (15 / 100))
    ∧ (OCP2.DiscountCalculatorBad.calculate_discount
        ((OCP2.Customer.init name .CORPORATE).set_purchase_amount amount)
      = OCP2.CorporateDiscount.calculate_discount amount
      ∧ OCP2.CorporateDiscount.calculate_discount amount = amount * (20 / 100)) :=
  ⟨⟨rfl, rfl⟩, ⟨rfl, rfl⟩, ⟨rfl, rfl⟩⟩

namespace ISP

/-- Enum `Color` of ISP.py. -/
inductive Color where
  | RED
  | GREEN
  | BLUE
deriving DecidableEq, Repr

/-- Attribute `Color.name` of a Python enum member: its member name. -/
def Color.enumName : Color → String
  | .RED => "RED"
  | .GREEN => "GREEN"
  | .BLUE => "BLUE"

/-- Class `Product` of ISP.py: name, color, price. -/
structure Product where
  name : String
  color : Color
  price : ℚ
deriving DecidableEq, Repr

/-- Class `Order` of ISP.py: list of products and payment status. -/
structure Order where
  products : List Product
  is_paid : Bool
deriving DecidableEq, Repr

/-- Constructor `Order.__init__`: stores the products, sets
`is_paid = False`. -/
def Order.init (products : List Product) : Order :=
  ⟨products, false⟩

/-- The line printed for one product by the `display_order` loops:
`f"- {product.name} ({product.color.name}, ${product.price})\n"`. -/
def orderLine (product : Product) : String :=
  "- " ++ product.name ++ " (" ++ product.color.enumName ++ ", $"
    ++ pyFloatStr product.price ++ ")\n"

/-- Method `UIDisplayBad.display_order`: starts from "Order items:\n" and
appends one `orderLine` per product. -/
def UIDisplayBad.display_order (order : Order) : String :=
  order.products.foldl (fun result product => result ++ orderLine product)
    "Order items:\n"

/-- Method `UIDisplayBad.process_payment`:
`raise NotImplementedError("UI does not handle payments")`. -/
def UIDisplayBad.process_payment (order : Order) : Except String Bool × Order :=
  (.error "UI does not handle payments", order)

/-- Method `UIDisplayBad.send_notification`:
`raise NotImplementedError("UI does not send notifications")`. -/
def UIDisplayBad.send_notification (order : Order) : Except String Unit × Order :=
  (.error "UI does not send notifications", order)

/-- Method `PaymentSystemBad.display_order`:
`raise NotImplementedError("Payment system does not display orders")`. -/
def PaymentSystemBad.display_order (order : Order) : Except String String × Order :=
  (.error "Payment system does not display orders", order)

/-- Method `PaymentSystemBad.process_payment`: sets `order.is_paid = True`
and returns `True`. -/
def PaymentSystemBad.process_payment (order : Order) : Bool × Order :=
  (true, { order with is_paid := true })

/-- Method `PaymentSystemBad.send_notification`:
`raise NotImplementedError("Payment system does not send notifications")`. -/
def PaymentSystemBad.send_notification (order : Order) : Except String Unit × Order :=
  (.error "Payment system does not send notifications", order)

/-- Method `UIDisplay.display_order` (good side): same body as
`UIDisplayBad.display_order`. -/
def UIDisplay.display_order (order : Order) : String :=
  order.products.foldl (fun result product => result ++ orderLine product)
    "Order items:\n"

/-- Method `PaymentSystem.process_payment` (good side): sets
`order.is_paid = True` and returns `True`. -/
def PaymentSystem.process_payment (order : Order) : Bool × Order :=
  (true, { order with is_paid := true })

/-- Method `NotificationSystem.send_notification` (good side): prints
`f"Email sent: Order with {len(order.products)} items has been processed!"`;
embedded as the printed string. -/
def NotificationSystem.send_notification (order : Order) : String :=
  "Email sent: Order with " ++ toString order.products.length
    ++ " items has been processed!"

/-- Class `OrderProcessor` of ISP.py: holds one implementation of each of
the three narrow interfaces (`OrderDisplay`, `OrderPayment`,
`OrderNotification`), embedded as the three method functions. -/
structure OrderProcessor where
  display : Order → String
  payment : Order → Bool × Order
  notification : Order → String

/-- Method `OrderProcessor.process_order`: prints the display, processes
the payment, and if it returned `True` sends the notification.  Returns
the list of printed strings together with the final order state. -/
def OrderProcessor.process_order (self : OrderProcessor) (order : Order) :
    List String × Order :=
  let displayed := self.display order
  let (ok, order') := self.payment order
  if ok then ([displayed, self.notification order'], order')
  else ([displayed], order')

/-- The `OrderProcessor(ui, payment, notification)` instance built in
`main` of ISP.py. -/
def mainProcessor : OrderProcessor :=
  ⟨UIDisplay.display_order, PaymentSystem.process_payment,
    NotificationSystem.send_notification⟩

end ISP

/-- C5: every ISP method stubbed because the wide interface forces it
raises `NotImplementedError` with the documented message and leaves the
order unchanged: `UIDisplayBad.process_payment`,
`UIDisplayBad.send_notification`, `PaymentSystemBad.display_order` and
`PaymentSystemBad.send_notification`. -/
theorem isp_forced_methods_raise (order : ISP.Order) :
    ISP.UIDisplayBad.process_payment order
      = (.error "UI does not handle payments", order)
    ∧ ISP.UIDisplayBad.send_notification order
      = (.error "UI does not send notifications", order)
    ∧ ISP.PaymentSystemBad.display_order order
      = (.error "Payment system does not display orders", order)
    ∧ ISP.PaymentSystemBad.send_notification order
      = (.error "Payment system does not send notifications", order) :=
  ⟨rfl, rfl, rfl, rfl⟩

/-- C7: `UIDisplay.display_order` is fixed string concatenation over the
product list — the header "Order items:\n" followed by one
`- {name} ({COLOR}, ${price})\n` line per product, in list order — and
`UIDisplayBad.display_order` returns the identical string. -/
theorem isp_display_order_concatenation (order : ISP.Order) :
    ISP.UIDisplay.display_order order
      = "Order items:\n" ++ strConcatMap ISP.orderLine order.products
    ∧ ISP.UIDisplayBad.display_order order = ISP.UIDisplay.display_order order :=
  ⟨foldl_append_eq_strConcatMap ISP.orderLine order.products _, rfl⟩

namespace SRP

/-- Enum `Color` of SRP.py. -/
inductive Color where
  | RED
  | GREEN
  | BLUE
deriving DecidableEq, Repr

/-- Attribute `Color.name` of a Python enum member: its member name. -/
def Color.enumName : Color → String
  | .RED => "RED"
  | .GREEN => "GREEN"
  | .BLUE => "BLUE"

/-- Class `Product` of SRP.py: name, color, price. -/
structure Product where
  name : String
  color : Color
  price : ℚ
deriving DecidableEq, Repr

/-- Class `ProductManagerBad` of SRP.py: holds the product list it
manages. -/
structure ProductManagerBad where
  products : List Product
deriving DecidableEq, Repr

/-- Constructor `ProductManagerBad.__init__`: `self.products = []`. -/
def ProductManagerBad.init : ProductManagerBad := ⟨[]⟩

/-- Method `ProductManagerBad.add_product`: appends
`Product(name, color, price)` to `self.products`. -/
def ProductManagerBad.add_product (self : ProductManagerBad)
    (name : String) (color : Color) (price : ℚ) : ProductManagerBad :=
  ⟨self.products ++ [⟨name, color, price⟩]⟩

/-- The `<li>` fragment appended per product by the display loops:
`f"<li>{product.name} ({product.color.name}, ${product.price})</li>"`. -/
def liLine (product : Product) : String :=
  "<li>" ++ product.name ++ " (" ++ product.color.enumName ++ ", $"
    ++ pyFloatStr product.price ++ ")</li>"

/-- Method `ProductManagerBad.display_products`: starts from "<ul>",
appends one `liLine` per product, then "</ul>". -/
def ProductManagerBad.display_products (self : ProductManagerBad) : String :=
  (self.products.foldl (fun result product => result ++ liLine product) "<ul>")
    ++ "</ul>"

/-- Method `ProductManagerBad.send_purchase_notification`: prints
`f"Email sent: You purchased {product_name}! Thank you for shopping!"`;
embedded as the printed string. -/
def ProductManagerBad.send_purchase_notification (product_name : String) : String :=
  "Email sent: You purchased " ++ product_name ++ "! Thank you for shopping!"

/-- Class `ProductRepository` of SRP.py: holds the stored product list. -/
structure ProductRepository where
  products : List Product
deriving DecidableEq, Repr

/-- Constructor `ProductRepository.__init__`: `self.products = []`. -/
def ProductRepository.init : ProductRepository := ⟨[]⟩

/-- Method `ProductRepository.add_product`: appends the given product. -/
def ProductRepository.add_product (self : ProductRepository)
    (product : Product) : ProductRepository :=
  ⟨self.products ++ [product]⟩

/-- Method `ProductRepository.get_products`: returns the list. -/
def ProductRepository.get_products (self : ProductRepository) : List Product :=
  self.products

/-- Method `ProductDisplay.display`: same HTML loop as
`ProductManagerBad.display_products`, over the given list. -/
def ProductDisplay.display (products : List Product) : String :=
  (products.foldl (fun result product => result ++ liLine product) "<ul>")
    ++ "</ul>"

/-- Method `NotificationService.send_purchase_notification` of SRP.py:
prints the same message as `ProductManagerBad.send_purchase_notification`;
embedded as the printed string. -/
def NotificationService.send_purchase_notification (product_name : String) : String :=
  "Email sent: You purchased " ++ product_name ++ "! Thank you for shopping!"

/-- A sequence of `ProductManagerBad.add_product` calls, one per product,
in list order (each add passes the product's name, color and price, as the
callers in `main` do). -/
def addAllBad (self : ProductManagerBad) : List Product → ProductManagerBad
  | [] => self
  | p :: rest => addAllBad (self.add_product p.name p.color p.price) rest

/-- A sequence of `ProductRepository.add_product` calls, one per product,
in list order. -/
def addAllRepo (self : ProductRepository) : List Product → ProductRepository
  | [] => self
  | p :: rest => addAllRepo (self.add_product p) rest

theorem addAllBad_products :
    ∀ (ps : List Product) (self : ProductManagerBad),
      (addAllBad self ps).products = self.products ++ ps := by
  intro ps
  induction ps with
  | nil => intro self; simp [addAllBad]
  | cons p rest ih =>
    intro self
    simp [addAllBad, ProductManagerBad.add_product, ih]

theorem addAllRepo_products :
    ∀ (ps : List Product) (self : ProductRepository),
      (addAllRepo self ps).products = self.products ++ ps := by
  intro ps
  induction ps with
  | nil => intro self; simp [addAllRepo]
  | cons p rest ih =>
    intro self
    simp [addAllRepo, ProductRepository.add_product, ih]

end SRP

/-- C8: the "bad" and "good" SRP implementations are observationally
equivalent — after the same sequence of added products,
`ProductManagerBad.display_products` returns the same HTML string
(`<ul>` + one `<li>{name} ({COLOR}, ${price})</li>` per product in
insertion order + `</ul>`) as `ProductDisplay.display` on the list held by
the `ProductRepository`, and the purchase-notification messages agree for
every product name. -/
theorem srp_bad_good_equivalent (ps : List SRP.Product) :
    (SRP.addAllBad SRP.ProductManagerBad.init ps).display_products
      = SRP.ProductDisplay.display
          (SRP.addAllRepo SRP.ProductRepository.init ps).get_products
    ∧ (SRP.addAllBad SRP.ProductManagerBad.init ps).display_products
      = ("<ul>" ++ strConcatMap SRP.liLine ps) ++ "</ul>"
    ∧ ∀ product_name : String,
        SRP.ProductManagerBad.send_purchase_notification product_name
          = SRP.NotificationService.send_purchase_notification product_name := by
  have hbad : (SRP.addAllBad SRP.ProductManagerBad.init ps).products = ps := by
    simp [SRP.addAllBad_products, SRP.ProductManagerBad.init]
  have hrepo : (SRP.addAllRepo SRP.ProductRepository.init ps).products = ps := by
    simp [SRP.addAllRepo_products, SRP.ProductRepository.init]
  refine ⟨?_, ?_, fun product_name => rfl⟩
  · rw [SRP.ProductManagerBad.display_products, SRP.ProductDisplay.display,
      SRP.ProductRepository.get_products, hbad, hrepo]
  · rw [SRP.ProductManagerBad.display_products, hbad,
      foldl_append_eq_strConcatMap]

/-- C6 counterexample: the records are not immutable after construction —
`PaymentSystem.process_payment` changes the `is_paid` field of a freshly
constructed order from `False` to `True`, and
`Customer.set_purchase_amount` changes `purchase_amount` from `0.0` to
`100.0`, at these concrete inputs. -/
theorem isp_record_mutation_counterexample :
    ((ISP.PaymentSystem.process_payment
        (ISP.Order.init [⟨"T-Shirt", .RED, 20⟩])).2.is_paid
      ≠ (ISP.Order.init [⟨"T-Shirt", .RED, 20⟩]).is_paid)
    ∧ ((OCP2.Customer.set_purchase_amount
        (OCP2.Customer.init "Alice" .REGULAR) 100).purchase_amount
      ≠ (OCP2.Customer.init "Alice" .REGULAR).purchase_amount) := by
  constructor
  · decide
  · intro h
    rw [OCP2.Customer.set_purchase_amount, OCP2.Customer.init] at h
    norm_num at h

/-- C6 amended: `Product` records are plain immutable value holders — no
operation of the embedding returns a modified `Product` — but `Order` and
`Customer` do have one mutating operation each: `process_payment` (good and
bad payment system) sets `Order.is_paid` to `True` leaving the `products`
field unchanged, and `Customer.set_purchase_amount` replaces
`purchase_amount` leaving `name` and `customer_type` unchanged; every other
operation leaves every field of every record unchanged (the raising ISP
stubs return the order untouched). -/
theorem record_field_frame_conditions :
    (∀ o : ISP.Order,
        (ISP.PaymentSystem.process_payment o).2.products = o.products
        ∧ (ISP.PaymentSystemBad.process_payment o).2.products = o.products
        ∧ (ISP.UIDisplayBad.process_payment o).2 = o
        ∧ (ISP.UIDisplayBad.send_notification o).2 = o
        ∧ (ISP.PaymentSystemBad.display_order o).2 = o
        ∧ (ISP.PaymentSystemBad.send_notification o).2 = o
        ∧ (ISP.mainProcessor.process_order o).2.products = o.products)
    ∧ (∀ (c : OCP2.Customer) (a : ℚ),
        (c.set_purchase_amount a).name = c.name
        ∧ (c.set_purchase_amount a).customer_type = c.customer_type
        ∧ (c.set_purchase_amount a).purchase_amount = a) := by
  refine ⟨fun o => ⟨rfl, rfl, rfl, rfl, rfl, rfl, ?_⟩, fun c a => ⟨rfl, rfl, rfl⟩⟩
  simp [ISP.OrderProcessor.process_order, ISP.mainProcessor,
    ISP.PaymentSystem.process_payment]

/-- C10: payment status is monotone — `Order.__init__` sets `is_paid` to
`False`; both `PaymentSystem.process_payment` and
`PaymentSystemBad.process_payment` return `True` and set `is_paid` to
`True` leaving the products unchanged; and no operation of ISP.py ever sets
`is_paid` back to `False`: every other order-returning operation preserves
`is_paid`, and the demo `OrderProcessor` leaves the order paid. -/
theorem isp_payment_status_monotone :
    (∀ ps : List ISP.Product,
        (ISP.Order.init ps).is_paid = false ∧ (ISP.Order.init ps).products = ps)
    ∧ (∀ o : ISP.Order,
        ISP.PaymentSystem.process_payment o = (true, { o with is_paid := true })
        ∧ ISP.PaymentSystemBad.process_payment o = (true, { o with is_paid := true })
        ∧ (ISP.UIDisplayBad.process_payment o).2.is_paid = o.is_paid
        ∧ (ISP.UIDisplayBad.send_notification o).2.is_paid = o.is_paid
        ∧ (ISP.PaymentSystemBad.display_order o).2.is_paid = o.is_paid
        ∧ (ISP.PaymentSystemBad.send_notification o).2.is_paid = o.is_paid
        ∧ (ISP.mainProcessor.process_order o).2.is_paid = true) := by
  refine ⟨fun ps => ⟨rfl, rfl⟩,
    fun o => ⟨rfl, rfl, rfl, rfl, rfl, rfl, ?_⟩⟩
  simp [ISP.OrderProcessor.process_order, ISP.mainProcessor,
    ISP.PaymentSystem.process_payment]
